import Mathlib

/-!
# Rayminder: shallow embedding of the state-and-scheduling engine

This file embeds the core of the Rayminder habit tracker
(`src/lib/types.ts` + `src/lib/storage.ts`, `src/lib/score.ts`,
`src/lib/time.ts`) in Lean and proves properties of the embedded
operations.

Modelling conventions:
* Timestamps are integers, counted in milliseconds (JS `Date.getTime()`);
  an ISO string field such as `dueAt` is represented by its epoch
  milliseconds.
* JS `number` arithmetic on fractional values (score weights, minute
  ratios, the raw `minutes` argument of `postpone`) is modelled over `ℚ`.
* The persisted `LocalStorage` collections are gathered in a `Store`
  record; every mutating operation takes the store and returns the new
  store, together with its result or error.  A thrown JS `Error` becomes
  an `Except.error`, and the store returned alongside it is the state at
  the moment of the throw (writes performed before the throw persist,
  exactly as with awaited `LocalStorage.setItem` calls).
* The source samples `new Date()` several times inside one operation
  (e.g. `upsertHabit` lines 119 and 148); following the design note of
  the spec, a single `now : Int` parameter stands for all samplings of
  one top-level call.
* `uid()` is random; each operation that creates a record takes the
  generated id as an explicit `newId` parameter.
-/

namespace Rayminder

/-- `type` field of a trackable item (`src/lib/types.ts`, `TrackableType`). -/
inductive TrackableType where
  | habit
  | task
deriving DecidableEq, Repr

/-- `source` field of a completion (`src/lib/types.ts`, `CompletionRecord.source`). -/
inductive Source where
  | manual
  | timer
deriving DecidableEq, Repr

/-- `Habit` record (`src/lib/types.ts`). Optional fields are `Option`s. -/
structure Habit where
  id : String
  name : String
  type : TrackableType
  intervalMinutes : Int
  targetRepetitionsPerDay : Int
  expectedDurationMinutes : Option Int
  notes : Option String
  createdAt : Int
  dueAt : Int
  lastCompletedAt : Option Int
  lastReminderAt : Option Int
  archived : Bool
deriving DecidableEq, Repr

/-- `TimerSession` record (`src/lib/types.ts`). -/
structure TimerSession where
  id : String
  habitId : String
  startedAt : Int
deriving DecidableEq, Repr

/-- `CompletionRecord` (`src/lib/types.ts`). -/
structure CompletionRecord where
  id : String
  habitId : String
  completedAt : Int
  durationSeconds : Int
  source : Source
deriving DecidableEq, Repr

/-- `PostponeRecord` (`src/lib/types.ts`). -/
structure PostponeRecord where
  id : String
  habitId : String
  postponedAt : Int
  minutes : Int
deriving DecidableEq, Repr

/-- `HabitDraft` (`src/lib/types.ts`). -/
structure HabitDraft where
  name : String
  type : TrackableType
  intervalMinutes : Int
  targetRepetitionsPerDay : Int
  expectedDurationMinutes : Option Int := none
  notes : Option String := none
deriving DecidableEq, Repr

/-- The four persisted collections of `src/lib/storage.ts`
(`rayminder_habits_v1`, `rayminder_sessions_v1`, `rayminder_completions_v1`,
`rayminder_postpones_v1`). -/
structure Store where
  habits : List Habit
  sessions : List TimerSession
  completions : List CompletionRecord
  postpones : List PostponeRecord
deriving DecidableEq, Repr

/-- The errors thrown by the engine: `"Habit not found"` and
`"No active timer for this habit"`. -/
inductive Err where
  | NotFound
  | NoActiveTimer
deriving DecidableEq, Repr

/-- Options object of `completeHabit` (`src/lib/storage.ts` line 215):
`{ durationSeconds?: number; source?: "manual" | "timer" }`. -/
structure CompleteOptions where
  durationSeconds : Option ℚ := none
  source : Option Source := none
deriving DecidableEq, Repr

/-- `habits[index] = next` after `findIndex`: replace the first element
satisfying `p` by its image under `f`, leave everything else unchanged. -/
def updateFirst (p : α → Bool) (f : α → α) : List α → List α
  | [] => []
  | x :: xs => if p x then f x :: xs else x :: updateFirst p f xs

/-- `secondsBetween` (`src/lib/time.ts` lines 7-11):
`Math.max(0, Math.floor((endMs - startMs) / 1000))`. -/
def secondsBetween (startMs endMs : Int) : Int :=
  max 0 ⌊((endMs - startMs : Int) : ℚ) / 1000⌋

/-- The `label` computed on lines 43-45 of `src/lib/time.ts`:
`` hours > 0 ? `${hours}h ${minutes}m` : `${minutes}m` `` with
`absMinutes = Math.abs(Math.round(diffMs / 60000))`. -/
def dueLabel (dueAtMs nowMs : Int) : String :=
  let diffMs : Int := dueAtMs - nowMs
  let absMinutes : Nat := (round ((diffMs : ℚ) / 60000)).natAbs
  let hours : Nat := absMinutes / 60
  let minutes : Nat := absMinutes % 60
  if hours > 0 then toString hours ++ "h " ++ toString minutes ++ "m"
  else toString minutes ++ "m"

/-- `formatRelativeDue` (`src/lib/time.ts` lines 34-48), with both
timestamps given in epoch milliseconds; the inline label computation is
factored out as `dueLabel` above. -/
def formatRelativeDue (dueAtMs nowMs : Int) : String :=
  let diffMs : Int := dueAtMs - nowMs
  let absMinutes : Nat := (round ((diffMs : ℚ) / 60000)).natAbs
  if absMinutes < 1 then "now"
  else if diffMs < 0 then dueLabel dueAtMs nowMs ++ " overdue"
  else "in " ++ dueLabel dueAtMs nowMs

/-- `listHabits` (`src/lib/storage.ts` lines 106-110): drop archived
habits unless `includeArchived`, then sort ascending by `dueAt`. -/
def listHabits (s : Store) (includeArchived : Bool := false) : List Habit :=
  let filtered := if includeArchived then s.habits else s.habits.filter (fun h => !h.archived)
  List.insertionSort (fun a b => a.dueAt ≤ b.dueAt) filtered

/-- `getHabit` (`src/lib/storage.ts` lines 112-115). -/
def getHabit (s : Store) (habitId : String) : Option Habit :=
  s.habits.find? (fun h => h.id == habitId)

/-- `upsertHabit` (`src/lib/storage.ts` lines 117-155).  With an
`existingId` it overwrites the draft fields of that habit (throwing
`NotFound` when absent); without one it creates a fresh habit due in
`intervalMinutes` minutes. -/
def upsertHabit (s : Store) (draft : HabitDraft) (existingId : Option String)
    (now : Int) (newId : String) : Except Err Habit × Store :=
  match existingId with
  | some eid =>
    match s.habits.find? (fun h => h.id == eid) with
    | none => (Except.error Err.NotFound, s)
    | some previous =>
      let next : Habit := { previous with
        name := draft.name
        type := draft.type
        intervalMinutes := draft.intervalMinutes
        targetRepetitionsPerDay := draft.targetRepetitionsPerDay
        expectedDurationMinutes := draft.expectedDurationMinutes
        notes := draft.notes }
      (Except.ok next,
        { s with habits := updateFirst (fun h => h.id == eid) (fun _ => next) s.habits })
  | none =>
    let habit : Habit := {
      id := newId
      name := draft.name
      type := draft.type
      intervalMinutes := draft.intervalMinutes
      targetRepetitionsPerDay := draft.targetRepetitionsPerDay
      expectedDurationMinutes := draft.expectedDurationMinutes
      notes := draft.notes
      createdAt := now
      dueAt := now + draft.intervalMinutes * 60000
      lastCompletedAt := none
      lastReminderAt := none
      archived := false }
    (Except.ok habit, { s with habits := s.habits ++ [habit] })

/-- `archiveHabit` (`src/lib/storage.ts` lines 157-164). -/
def archiveHabit (s : Store) (habitId : String) : Store :=
  { s with
    habits := s.habits.map (fun h => if h.id == habitId then { h with archived := true } else h)
    sessions := s.sessions.filter (fun e => e.habitId != habitId) }

/-- `startHabitTimer` (`src/lib/storage.ts` lines 178-194). -/
def startHabitTimer (s : Store) (habitId : String) (now : Int) (newId : String) :
    TimerSession × Store :=
  match s.sessions.find? (fun e => e.habitId == habitId) with
  | some existing => (existing, s)
  | none =>
    let session : TimerSession := { id := newId, habitId := habitId, startedAt := now }
    (session, { s with sessions := s.sessions ++ [session] })

/-- `completeHabit` (`src/lib/storage.ts` lines 213-252). -/
def completeHabit (s : Store) (habitId : String) (opts : CompleteOptions)
    (now : Int) (newId : String) : Except Err CompletionRecord × Store :=
  match s.habits.find? (fun h => h.id == habitId) with
  | none => (Except.error Err.NotFound, s)
  | some habit =>
    let completion : CompletionRecord := {
      id := newId
      habitId := habitId
      completedAt := now
      durationSeconds := max 0 ⌊opts.durationSeconds.getD 0⌋
      source := opts.source.getD Source.manual }
    let habits := updateFirst (fun h => h.id == habitId)
      (fun _ => { habit with
        lastCompletedAt := some now
        lastReminderAt := none
        dueAt := now + habit.intervalMinutes * 60000 }) s.habits
    let remainingSessions := s.sessions.filter (fun e => e.habitId != habitId)
    (Except.ok completion,
      { s with
        completions := s.completions ++ [completion]
        habits := habits
        sessions := remainingSessions })

/-- `stopHabitTimer` (`src/lib/storage.ts` lines 196-211).  Note that the
sessions collection is written (the found session removed) before the
nested `completeHabit` call runs. -/
def stopHabitTimer (s : Store) (habitId : String) (now : Int) (newId : String) :
    Except Err CompletionRecord × Store :=
  match s.sessions.find? (fun e => e.habitId == habitId) with
  | none => (Except.error Err.NoActiveTimer, s)
  | some session =>
    let s1 : Store := { s with sessions := s.sessions.filter (fun e => e.id != session.id) }
    completeHabit s1 habitId
      { durationSeconds := some ((secondsBetween session.startedAt now : Int) : ℚ)
        source := some Source.timer } now newId

/-- `postponeHabit` (`src/lib/storage.ts` lines 254-290). -/
def postponeHabit (s : Store) (habitId : String) (minutes : ℚ)
    (now : Int) (newId : String) : Except Err Habit × Store :=
  let safeMinutes : Int := max 1 ⌊minutes⌋
  match s.habits.find? (fun h => h.id == habitId) with
  | none => (Except.error Err.NotFound, s)
  | some current =>
    let baseTime : Int := if current.dueAt > now then current.dueAt else now
    let nextDueAt : Int := baseTime + safeMinutes * 60000
    let postponed : PostponeRecord := {
      id := newId
      habitId := habitId
      postponedAt := now
      minutes := safeMinutes }
    let updated : Habit := { current with dueAt := nextDueAt, lastReminderAt := none }
    (Except.ok updated,
      { s with
        habits := updateFirst (fun h => h.id == habitId) (fun _ => updated) s.habits
        postpones := s.postpones ++ [postponed] })

/-- `setHabitLastReminder` (`src/lib/storage.ts` lines 292-305). -/
def setHabitLastReminder (s : Store) (habitId : String) (atMs : Int) : Store :=
  match s.habits.find? (fun h => h.id == habitId) with
  | none => s
  | some _ =>
    let reminded := updateFirst (fun h => h.id == habitId)
      (fun h => { h with lastReminderAt := some atMs }) s.habits
    { s with habits := reminded }

/-- `clamp` (`src/lib/score.ts` lines 5-7): `Math.max(min, Math.min(max, value))`
with defaults `min = 0`, `max = 1`. -/
def clamp (value : ℚ) (lo : ℚ := 0) (hi : ℚ := 1) : ℚ :=
  max lo (min hi value)

/-- `gradeFromScore` (`src/lib/score.ts` lines 9-16). -/
def gradeFromScore (score : Int) : String :=
  if score ≥ 95 then "S"
  else if score ≥ 90 then "A+"
  else if score ≥ 80 then "A"
  else if score ≥ 70 then "B"
  else if score ≥ 60 then "C"
  else "D"

/-- Result record of the per-habit score computation
(`DailyScoreHabitBreakdown` in `src/lib/types.ts`). -/
structure DailyScoreHabitBreakdown where
  habitId : String
  name : String
  repetitions : ℚ
  repetitionTarget : Int
  repetitionProgress : ℚ
  durationMinutes : ℚ
  durationTargetMinutes : ℚ
  durationProgress : ℚ
  postpones : ℚ
  isOverdue : Bool
  score : Int
deriving DecidableEq, Repr

/-- `habitScoreBreakdown` (`src/lib/score.ts` lines 18-52).  The three
maps (`completions.get(id) ?? 0` etc.) are modelled as `String → Option ℚ`
lookups.  JS truthiness of `habit.expectedDurationMinutes ? ... : 0` means
`some 0` behaves like `none` (both give target `0`), which the `if d = 0`
branch mirrors. -/
def habitScoreBreakdown (habit : Habit) (now : Int)
    (completions duration postpones : String → Option ℚ) : DailyScoreHabitBreakdown :=
  let repetitionTarget : Int := max 1 habit.targetRepetitionsPerDay
  let repetitions : ℚ := (completions habit.id).getD 0
  let repetitionProgress : ℚ := clamp (repetitions / (repetitionTarget : ℚ))
  let durationMinutes : ℚ := (duration habit.id).getD 0
  let durationTargetMinutes : ℚ :=
    match habit.expectedDurationMinutes with
    | some d => if d = 0 then 0 else (d : ℚ) * (repetitionTarget : ℚ)
    | none => 0
  let durationProgress : ℚ :=
    if durationTargetMinutes > 0 then clamp (durationMinutes / durationTargetMinutes)
    else repetitionProgress
  let postponeCount : ℚ := (postpones habit.id).getD 0
  let isOverdue : Bool := habit.dueAt < now
  let overdueMinutes : ℚ :=
    if isOverdue then max 0 (((now - habit.dueAt : Int) : ℚ) / 60000) else 0
  let postponePenalty : ℚ := min 0.2 (postponeCount * 0.05)
  let overduePenalty : ℚ := min 0.25 (overdueMinutes / max 1 (habit.intervalMinutes : ℚ) * 0.15)
  let rawProgress : ℚ := repetitionProgress * 0.65 + durationProgress * 0.35
  let score : Int := round (clamp (rawProgress * (1 - postponePenalty - overduePenalty)) * 100)
  { habitId := habit.id
    name := habit.name
    repetitions := repetitions
    repetitionTarget := repetitionTarget
    repetitionProgress := repetitionProgress
    durationMinutes := durationMinutes
    durationTargetMinutes := durationTargetMinutes
    durationProgress := durationProgress
    postpones := postponeCount
    isOverdue := isOverdue
    score := score }

/-- The per-habit daily score exactly as the spec's words of claim C2
describe it, for comparison with `habitScoreBreakdown`:
`round(clamp01(rawProgress * (1 - postponePenalty - overduePenalty)) * 100)`
with `rawProgress = 0.65 * repetitionProgress + 0.35 * durationProgress`,
`repetitionProgress = clamp01(todayCompletions / max(1, targetRepetitionsPerDay))`,
`durationProgress = clamp01(todayDurationMinutes / (expectedDurationMinutes * repetitionTarget))`
when an expected duration is set and otherwise `repetitionProgress`,
`postponePenalty = min(0.20, todayPostpones * 0.05)`, and
`overduePenalty = min(0.25, (overdueMinutes / max(1, intervalMinutes)) * 0.15)`
with `overdueMinutes = 0` when not overdue. -/
def specHabitScore (habit : Habit) (now : Int)
    (todayCompletions todayDurationMinutes todayPostpones : ℚ) : Int :=
  let repetitionTarget : Int := max 1 habit.targetRepetitionsPerDay
  let repetitionProgress : ℚ := clamp (todayCompletions / (repetitionTarget : ℚ))
  let durationProgress : ℚ :=
    match habit.expectedDurationMinutes with
    | some d => clamp (todayDurationMinutes / ((d : ℚ) * (repetitionTarget : ℚ)))
    | none => repetitionProgress
  let overdueMinutes : ℚ :=
    if habit.dueAt < now then ((now - habit.dueAt : Int) : ℚ) / 60000 else 0
  let postponePenalty : ℚ := min 0.2 (todayPostpones * 0.05)
  let overduePenalty : ℚ := min 0.25 (overdueMinutes / max 1 (habit.intervalMinutes : ℚ) * 0.15)
  let rawProgress : ℚ := 0.65 * repetitionProgress + 0.35 * durationProgress
  round (clamp (rawProgress * (1 - postponePenalty - overduePenalty)) * 100)

/-! ## Helper lemmas -/

theorem updateFirst_cons_pos {p : α → Bool} {f : α → α} {a : α} {t : List α}
    (ha : p a = true) : updateFirst p f (a :: t) = f a :: t := by
  simp [updateFirst, ha]

theorem updateFirst_cons_neg {p : α → Bool} {f : α → α} {a : α} {t : List α}
    (ha : ¬ p a = true) : updateFirst p f (a :: t) = a :: updateFirst p f t := by
  simp [updateFirst, ha]

/-- After replacing the first element satisfying `p` by `f x`, `find? p`
returns `f x`, provided the replacement still satisfies `p`. -/
theorem updateFirst_find? {p : α → Bool} {f : α → α} :
    ∀ {l : List α} {x : α}, l.find? p = some x → p (f x) = true →
      (updateFirst p f l).find? p = some (f x) := by
  intro l
  induction l with
  | nil => intro x h _; simp at h
  | cons a t ih =>
    intro x h hf
    by_cases ha : p a = true
    · have hax : a = x := by
        rw [List.find?_cons_of_pos _ ha] at h
        exact Option.some.inj h
      subst hax
      rw [updateFirst_cons_pos ha, List.find?_cons_of_pos _ hf]
    · have h' : t.find? p = some x := by
        rwa [List.find?_cons_of_neg _ ha] at h
      rw [updateFirst_cons_neg ha, List.find?_cons_of_neg _ ha]
      exact ih h' hf

/-! ## Concrete fixtures used by the witnesses -/

def habitA : Habit := {
  id := "a"
  name := "Water"
  type := TrackableType.habit
  intervalMinutes := 60
  targetRepetitionsPerDay := 2
  expectedDurationMinutes := some 10
  notes := none
  createdAt := 0
  dueAt := 3600000
  lastCompletedAt := none
  lastReminderAt := none
  archived := false }

def sessionA : TimerSession := { id := "t1", habitId := "a", startedAt := 1000 }

/-- One habit, one running timer session for it. -/
def store1 : Store :=
  { habits := [habitA], sessions := [sessionA], completions := [], postpones := [] }

/-- The habit record exists but is archived. -/
def storeArchived : Store :=
  { habits := [{ habitA with archived := true }], sessions := [], completions := [],
    postpones := [] }

/-- A timer session whose habit id does not occur among the habits. -/
def storeDangling : Store :=
  { habits := [habitA], sessions := [{ id := "t2", habitId := "ghost", startedAt := 500 }],
    completions := [], postpones := [] }

/-! ## Claims -/

/-- C1: for every habit present in the store, a `complete(id, options)`
call succeeds, appends exactly one `CompletionRecord` with
`completedAt = now`, and updates the habit to `lastCompletedAt = now`,
`lastReminderAt` cleared, and `dueAt = now + intervalMinutes` (in
milliseconds: `now + intervalMinutes * 60000`), regardless of how far
past the previous `dueAt` the call happens. -/
theorem completeHabit_spec (s : Store) (habitId newId : String) (opts : CompleteOptions)
    (now : Int) (habit : Habit)
    (h : s.habits.find? (fun x => x.id == habitId) = some habit) :
    (completeHabit s habitId opts now newId).1 =
        Except.ok { id := newId, habitId := habitId, completedAt := now,
                    durationSeconds := max 0 ⌊opts.durationSeconds.getD 0⌋,
                    source := opts.source.getD Source.manual }
      ∧ (completeHabit s habitId opts now newId).2.completions =
          s.completions ++ [{ id := newId, habitId := habitId, completedAt := now,
                              durationSeconds := max 0 ⌊opts.durationSeconds.getD 0⌋,
                              source := opts.source.getD Source.manual }]
      ∧ (completeHabit s habitId opts now newId).2.habits.find? (fun x => x.id == habitId) =
          some { habit with lastCompletedAt := some now, lastReminderAt := none,
                            dueAt := now + habit.intervalMinutes * 60000 } := by
  have hp : (habit.id == habitId) = true := by simpa using List.find?_some h
  unfold completeHabit
  rw [h]
  refine ⟨rfl, rfl, ?_⟩
  exact updateFirst_find? h hp

/-- C1 witness: the theorem applied to the concrete `store1`. -/
theorem completeHabit_spec_witness :
    (completeHabit store1 "a" {} 7200000 "c1").1 =
        Except.ok { id := "c1", habitId := "a", completedAt := 7200000,
                    durationSeconds := max 0 ⌊(({} : CompleteOptions)).durationSeconds.getD 0⌋,
                    source := (({} : CompleteOptions)).source.getD Source.manual }
      ∧ (completeHabit store1 "a" {} 7200000 "c1").2.completions =
          store1.completions ++ [{ id := "c1", habitId := "a", completedAt := 7200000,
                                   durationSeconds := max 0 ⌊(({} : CompleteOptions)).durationSeconds.getD 0⌋,
                                   source := (({} : CompleteOptions)).source.getD Source.manual }]
      ∧ (completeHabit store1 "a" {} 7200000 "c1").2.habits.find? (fun x => x.id == "a") =
          some { habitA with lastCompletedAt := some 7200000, lastReminderAt := none,
                             dueAt := 7200000 + habitA.intervalMinutes * 60000 } :=
  completeHabit_spec store1 "a" "c1" {} 7200000 habitA (by decide)

/-- C3: for every habit present in the store, `postpone(id, m)` clamps
`m` to an integer `safe = max 1 ⌊m⌋ ≥ 1`, sets the new `dueAt` to
`max(currentDueAt, now) + safe` minutes, appends a `PostponeRecord`
carrying the coerced minutes, and clears `lastReminderAt`. -/
theorem postponeHabit_spec (s : Store) (habitId newId : String) (m : ℚ) (now : Int)
    (current : Habit)
    (h : s.habits.find? (fun x => x.id == habitId) = some current) :
    (1 : Int) ≤ max 1 ⌊m⌋
      ∧ (postponeHabit s habitId m now newId).1 =
          Except.ok { current with dueAt := max current.dueAt now + max 1 ⌊m⌋ * 60000,
                                   lastReminderAt := none }
      ∧ (postponeHabit s habitId m now newId).2.postpones =
          s.postpones ++ [{ id := newId, habitId := habitId, postponedAt := now,
                            minutes := max 1 ⌊m⌋ }]
      ∧ (postponeHabit s habitId m now newId).2.habits.find? (fun x => x.id == habitId) =
          some { current with dueAt := max current.dueAt now + max 1 ⌊m⌋ * 60000,
                              lastReminderAt := none } := by
  have hp : (current.id == habitId) = true := by simpa using List.find?_some h
  have hbase : (if current.dueAt > now then current.dueAt else now) = max current.dueAt now := by
    rcases le_or_lt current.dueAt now with hle | hlt
    · rw [if_neg (not_lt.mpr hle), max_eq_right hle]
    · rw [if_pos hlt, max_eq_left hlt.le]
  refine ⟨le_max_left _ _, ?_, ?_, ?_⟩
  · simp only [postponeHabit, h, hbase]
  · simp only [postponeHabit, h]
  · simp only [postponeHabit, h, hbase]
    exact updateFirst_find? h hp

/-- C3 witness: postponing the concrete habit of `store1` by `2.5`
minutes while it is overdue (`now` past its `dueAt`). -/
theorem postponeHabit_spec_witness :
    (1 : Int) ≤ max 1 ⌊(5/2 : ℚ)⌋
      ∧ (postponeHabit store1 "a" (5/2) 7200000 "p1").1 =
          Except.ok { habitA with dueAt := max habitA.dueAt 7200000 + max 1 ⌊(5/2 : ℚ)⌋ * 60000,
                                  lastReminderAt := none }
      ∧ (postponeHabit store1 "a" (5/2) 7200000 "p1").2.postpones =
          store1.postpones ++ [{ id := "p1", habitId := "a", postponedAt := 7200000,
                                 minutes := max 1 ⌊(5/2 : ℚ)⌋ }]
      ∧ (postponeHabit store1 "a" (5/2) 7200000 "p1").2.habits.find? (fun x => x.id == "a") =
          some { habitA with dueAt := max habitA.dueAt 7200000 + max 1 ⌊(5/2 : ℚ)⌋ * 60000,
                             lastReminderAt := none } :=
  postponeHabit_spec store1 "a" "p1" (5/2) 7200000 habitA (by decide)

/-- C4 counterexample: in `storeArchived` the id `"a"` is absent from the
non-archived habits, yet `complete` does not fail with `NotFound` — it
succeeds (the source searches all habits, archived included). -/
theorem completeHabit_archived_succeeds :
    (storeArchived.habits.filter (fun h => !h.archived)).find? (fun h => h.id == "a") = none
      ∧ (completeHabit storeArchived "a" {} 0 "c1").1 ≠ Except.error Err.NotFound := by
  constructor
  · rfl
  · intro hcontra
    have hok : (completeHabit storeArchived "a" {} 0 "c1").1 =
        Except.ok { id := "c1", habitId := "a", completedAt := 0,
                    durationSeconds := 0, source := Source.manual } := by
      rfl
    rw [hok] at hcontra
    exact Except.noConfusion hcontra

/-- C4 amended: `complete(id, options)` fails with `NotFound` exactly when
the id is absent from the full habits collection, archived habits
included; a habit that exists but is archived is completed normally. -/
theorem completeHabit_notFound_iff (s : Store) (habitId newId : String)
    (opts : CompleteOptions) (now : Int) :
    (completeHabit s habitId opts now newId).1 = Except.error Err.NotFound
      ↔ s.habits.find? (fun h => h.id == habitId) = none := by
  cases hf : s.habits.find? (fun h => h.id == habitId) with
  | none => simp [completeHabit, hf]
  | some habit => simp [completeHabit, hf]

/-- C5: `stopTimer(id)` fails with `NoActiveTimer` exactly when no timer
session exists for `id`; when a session (and the habit) exists it removes
that session and produces a completion with `source = timer` and
`durationSeconds = secondsBetween(startedAt, now)`, i.e. `now - startedAt`
floored to whole seconds and clamped `≥ 0`. -/
theorem stopHabitTimer_spec (s : Store) (habitId newId : String) (now : Int)
    (sess : TimerSession) (habit : Habit) :
    ((stopHabitTimer s habitId now newId).1 = Except.error Err.NoActiveTimer
        ↔ s.sessions.find? (fun e => e.habitId == habitId) = none)
      ∧ (s.sessions.find? (fun e => e.habitId == habitId) = some sess →
         s.habits.find? (fun h => h.id == habitId) = some habit →
           (stopHabitTimer s habitId now newId).1 =
               Except.ok { id := newId, habitId := habitId, completedAt := now,
                           durationSeconds := secondsBetween sess.startedAt now,
                           source := Source.timer }
             ∧ sess ∉ (stopHabitTimer s habitId now newId).2.sessions) := by
  constructor
  · cases hf : s.sessions.find? (fun e => e.habitId == habitId) with
    | none => simp [stopHabitTimer, hf]
    | some s0 =>
      cases hh : s.habits.find? (fun h => h.id == habitId) with
      | none => simp [stopHabitTimer, hf, completeHabit, hh]
      | some hb => simp [stopHabitTimer, hf, completeHabit, hh]
  · intro hs hh
    have hpsess : (sess.habitId == habitId) = true := by simpa using List.find?_some hs
    have hdur : max 0 ⌊((secondsBetween sess.startedAt now : Int) : ℚ)⌋ =
        secondsBetween sess.startedAt now := by
      rw [Int.floor_intCast]
      exact max_eq_right (le_max_left 0 _)
    constructor
    · simp only [stopHabitTimer, hs, completeHabit, hh, Option.getD_some]
      rw [hdur]
    · intro hmem
      have hsess2 : (stopHabitTimer s habitId now newId).2.sessions =
          (s.sessions.filter (fun e => e.id != sess.id)).filter
            (fun e => e.habitId != habitId) := by
        simp only [stopHabitTimer, hs, completeHabit, hh]
      rw [hsess2] at hmem
      have h2 := (List.mem_filter.mp hmem).2
      have heq : sess.habitId = habitId := by simpa using hpsess
      simp [heq] at h2

/-- C5 witness: stopping the running timer of `store1`. -/
theorem stopHabitTimer_spec_witness :
    (stopHabitTimer store1 "a" 61000 "c9").1 =
        Except.ok { id := "c9", habitId := "a", completedAt := 61000,
                    durationSeconds := secondsBetween sessionA.startedAt 61000,
                    source := Source.timer }
      ∧ sessionA ∉ (stopHabitTimer store1 "a" 61000 "c9").2.sessions :=
  (stopHabitTimer_spec store1 "a" "c9" 61000 sessionA habitA).2 (by decide) (by decide)

/-- C6: `startTimer(id)` is idempotent.  If a session for the habit
already exists the call returns it with the store unchanged; if none
exists it appends a fresh session with `startedAt = now`; and a second
call right after any first call returns the first call's session and
leaves its store unmodified. -/
theorem startHabitTimer_idempotent (s : Store) (habitId newId newId2 : String)
    (now now2 : Int) (sess : TimerSession) :
    (s.sessions.find? (fun e => e.habitId == habitId) = some sess →
      startHabitTimer s habitId now newId = (sess, s))
      ∧ (s.sessions.find? (fun e => e.habitId == habitId) = none →
          startHabitTimer s habitId now newId =
            ({ id := newId, habitId := habitId, startedAt := now },
              { s with sessions :=
                  s.sessions ++ [{ id := newId, habitId := habitId, startedAt := now }] }))
      ∧ startHabitTimer (startHabitTimer s habitId now newId).2 habitId now2 newId2 =
          ((startHabitTimer s habitId now newId).1,
            (startHabitTimer s habitId now newId).2) := by
  refine ⟨?_, ?_, ?_⟩
  · intro hf
    simp [startHabitTimer, hf]
  · intro hf
    simp [startHabitTimer, hf]
  · cases hf : s.sessions.find? (fun e => e.habitId == habitId) with
    | some s0 => simp [startHabitTimer, hf]
    | none =>
      have happ : (s.sessions ++
            [({ id := newId, habitId := habitId, startedAt := now } : TimerSession)]).find?
            (fun e => e.habitId == habitId) =
          some ({ id := newId, habitId := habitId, startedAt := now } : TimerSession) := by
        rw [List.find?_append, hf]
        simp
      simp [startHabitTimer, hf, happ]

/-- C6 witness: starting a timer twice on `store1` (which already has a
session) and on a fresh store without one. -/
theorem startHabitTimer_idempotent_witness :
    startHabitTimer store1 "a" 5000 "t9" = (sessionA, store1) :=
  (startHabitTimer_idempotent store1 "a" "t9" "t8" 5000 6000 sessionA).1 (by decide)

/-- C10: when a timer session exists for a `habitId` that is absent from
the habits collection, `stopTimer` first deletes the session and only
then fails with `NotFound` from the nested `complete`: the error is
returned with the session already removed from the store. -/
theorem stopHabitTimer_dangling (s : Store) (habitId newId : String) (now : Int)
    (sess : TimerSession)
    (hs : s.sessions.find? (fun e => e.habitId == habitId) = some sess)
    (hh : s.habits.find? (fun h => h.id == habitId) = none) :
    stopHabitTimer s habitId now newId =
      (Except.error Err.NotFound,
        { s with sessions := s.sessions.filter (fun e => e.id != sess.id) }) := by
  simp only [stopHabitTimer, hs, completeHabit, hh]

/-- C10 witness: `storeDangling` has a session for `"ghost"` with no such
habit; stopping it removes the session and then fails `NotFound`. -/
theorem stopHabitTimer_dangling_witness :
    stopHabitTimer storeDangling "ghost" 900 "c5" =
      (Except.error Err.NotFound,
        { storeDangling with sessions :=
            storeDangling.sessions.filter (fun e => e.id != "t2") }) :=
  stopHabitTimer_dangling storeDangling "ghost" "c5" 900
    { id := "t2", habitId := "ghost", startedAt := 500 } (by decide) (by decide)

/-- A string of the shape `"in Xm"` (or `"in Xh Ym"`) is never `"now"`. -/
theorem in_label_ne_now (x : String) : ("in " ++ (x ++ "m")) ≠ "now" := by
  intro h
  have hl := congrArg String.length h
  rw [String.length_append, String.length_append] at hl
  have h3 : "in ".length = 3 := rfl
  have h1 : "m".length = 1 := rfl
  have hn : "now".length = 3 := rfl
  omega

/-- A string ending in `" overdue"` is never `"now"`. -/
theorem overdue_label_ne_now (x : String) : (x ++ " overdue") ≠ "now" := by
  intro h
  have hl := congrArg String.length h
  rw [String.length_append] at hl
  have h8 : " overdue".length = 8 := rfl
  have hn : "now".length = 3 := rfl
  omega

/-- The rounded minute distance is zero exactly on the half-open window
of half a minute either side. -/
theorem natAbs_round_div_lt_one_iff (k : Int) :
    ((round ((k : ℚ) / 60000)).natAbs < 1) ↔ (-30000 ≤ k ∧ k < 30000) := by
  rw [Nat.lt_one_iff, Int.natAbs_eq_zero, round_eq, Int.floor_eq_zero_iff, Set.mem_Ico]
  constructor
  · rintro ⟨h1, h2⟩
    constructor
    · have ha : (-1/2 : ℚ) ≤ (k : ℚ) / 60000 := by linarith
      have hb := (le_div_iff₀ (by norm_num : (0:ℚ) < 60000)).mp ha
      have hc : (-30000 : ℚ) ≤ (k : ℚ) := by linarith
      exact_mod_cast hc
    · have ha : (k : ℚ) / 60000 < 1/2 := by linarith
      have hb := (div_lt_iff₀ (by norm_num : (0:ℚ) < 60000)).mp ha
      have hc : (k : ℚ) < 30000 := by linarith
      exact_mod_cast hc
  · rintro ⟨h1, h2⟩
    have q1 : (-30000 : ℚ) ≤ (k : ℚ) := by exact_mod_cast h1
    have q2 : (k : ℚ) < 30000 := by exact_mod_cast h2
    constructor
    · have ha : (-1/2 : ℚ) ≤ (k : ℚ) / 60000 := by
        rw [le_div_iff₀ (by norm_num : (0:ℚ) < 60000)]
        linarith
      linarith
    · have ha : (k : ℚ) / 60000 < 1/2 := by
        rw [div_lt_iff₀ (by norm_num : (0:ℚ) < 60000)]
        linarith
      linarith

/-- C9 counterexample: a due time 45 seconds in the future is within one
minute of `now` (`|dueAt - now| ≤ 60000` ms), yet `formatRelativeDue`
does not return `"now"` — it returns `"in 1m"`, because the code tests
`Math.abs(Math.round(diff / 60000)) < 1`, a half-minute window. -/
theorem formatRelativeDue_within_minute_not_now :
    |(45000 : Int) - 0| ≤ 60000 ∧ formatRelativeDue 45000 0 ≠ "now" := by
  constructor
  · decide
  · intro h
    have hwin : ¬ ((round (((45000 - 0 : Int) : ℚ) / 60000)).natAbs < 1) := by
      rw [natAbs_round_div_lt_one_iff]
      omega
    have hneg : ¬ ((45000 - 0 : Int) < 0) := by omega
    have hfmt : formatRelativeDue 45000 0 = "in " ++ dueLabel 45000 0 := by
      simp only [formatRelativeDue]
      rw [if_neg hwin, if_neg hneg]
    have hy : ∃ y, dueLabel 45000 0 = y ++ "m" := by
      simp only [dueLabel]
      split
      · exact ⟨_, rfl⟩
      · exact ⟨_, rfl⟩
    obtain ⟨y, hyeq⟩ := hy
    rw [hfmt, hyeq] at h
    exact in_label_ne_now y h

/-- C9 amended: `formatRelativeDue(dueAt, now)` returns `"now"` exactly
when `dueAt - now` rounds to zero minutes, i.e. on the half-minute window
`-30000 ≤ dueAt - now < 30000` (milliseconds); at or beyond half a minute
in the future it returns `"in Xh Ym"` / `"in Xm"`, and half a minute or
more in the past it returns `"Xh Ym overdue"` / `"Xm overdue"`. -/
theorem formatRelativeDue_now_iff (dueAtMs nowMs : Int) :
    (formatRelativeDue dueAtMs nowMs = "now"
        ↔ (-30000 ≤ dueAtMs - nowMs ∧ dueAtMs - nowMs < 30000))
      ∧ (30000 ≤ dueAtMs - nowMs →
          formatRelativeDue dueAtMs nowMs = "in " ++ dueLabel dueAtMs nowMs)
      ∧ (dueAtMs - nowMs < -30000 →
          formatRelativeDue dueAtMs nowMs = dueLabel dueAtMs nowMs ++ " overdue") := by
  have key := natAbs_round_div_lt_one_iff (dueAtMs - nowMs)
  by_cases hwin : (round (((dueAtMs - nowMs : Int) : ℚ) / 60000)).natAbs < 1
  · have hw := key.mp hwin
    have hfmt : formatRelativeDue dueAtMs nowMs = "now" := by
      simp only [formatRelativeDue]
      rw [if_pos hwin]
    exact ⟨⟨fun _ => hw, fun _ => hfmt⟩,
      fun h30 => absurd h30 (by omega),
      fun hng => absurd hng (by omega)⟩
  · have hw : ¬ (-30000 ≤ dueAtMs - nowMs ∧ dueAtMs - nowMs < 30000) :=
      fun hcon => hwin (key.mpr hcon)
    refine ⟨⟨?_, fun hin => absurd (key.mpr hin) hwin⟩, ?_, ?_⟩
    · intro hnow
      exfalso
      by_cases hneg : dueAtMs - nowMs < 0
      · have hfmt : formatRelativeDue dueAtMs nowMs = dueLabel dueAtMs nowMs ++ " overdue" := by
          simp only [formatRelativeDue]
          rw [if_neg hwin, if_pos hneg]
        rw [hfmt] at hnow
        exact overdue_label_ne_now _ hnow
      · have hfmt : formatRelativeDue dueAtMs nowMs = "in " ++ dueLabel dueAtMs nowMs := by
          simp only [formatRelativeDue]
          rw [if_neg hwin, if_neg hneg]
        have hy : ∃ y, dueLabel dueAtMs nowMs = y ++ "m" := by
          simp only [dueLabel]
          split
          · exact ⟨_, rfl⟩
          · exact ⟨_, rfl⟩
        obtain ⟨y, hyeq⟩ := hy
        rw [hfmt, hyeq] at hnow
        exact in_label_ne_now y hnow
    · intro h30
      have hneg : ¬ (dueAtMs - nowMs < 0) := by omega
      simp only [formatRelativeDue]
      rw [if_neg hwin, if_neg hneg]
    · intro hng
      have hneg : dueAtMs - nowMs < 0 := by omega
      simp only [formatRelativeDue]
      rw [if_neg hwin, if_pos hneg]

/-- C9 amended witness: both non-`"now"` branches at concrete inputs. -/
theorem formatRelativeDue_now_iff_witness :
    formatRelativeDue 8000000 0 = "in " ++ dueLabel 8000000 0
      ∧ formatRelativeDue (-8000000) 0 = dueLabel (-8000000) 0 ++ " overdue" :=
  ⟨(formatRelativeDue_now_iff 8000000 0).2.1 (by norm_num),
   (formatRelativeDue_now_iff (-8000000) 0).2.2 (by norm_num)⟩

def draftB : HabitDraft :=
  { name := "Run", type := TrackableType.task, intervalMinutes := 30,
    targetRepetitionsPerDay := 1 }

/-- C7: for a habit with positive `intervalMinutes`, `dueAt` is never
moved into the past: after a successful `complete` the stored habit's
`dueAt` is strictly later than `now`; after a successful `postpone` it is
strictly later than `now` (with no positivity assumption needed); and a
freshly created habit has `dueAt` no earlier than `createdAt`. -/
theorem dueAt_never_past (s : Store) (habitId newId : String) (opts : CompleteOptions)
    (m : ℚ) (draft : HabitDraft) (now : Int) (habit : Habit) :
    (s.habits.find? (fun h => h.id == habitId) = some habit → 0 < habit.intervalMinutes →
      ((completeHabit s habitId opts now newId).2.habits.find?
          (fun h => h.id == habitId)).elim True (fun u => now < u.dueAt))
      ∧ (s.habits.find? (fun h => h.id == habitId) = some habit →
          ((postponeHabit s habitId m now newId).2.habits.find?
              (fun h => h.id == habitId)).elim True (fun u => now < u.dueAt))
      ∧ (0 < draft.intervalMinutes →
          ((upsertHabit s draft none now newId).1.toOption).elim True
            (fun h2 => h2.createdAt ≤ h2.dueAt)) := by
  refine ⟨?_, ?_, ?_⟩
  · intro h hpos
    have hp : (habit.id == habitId) = true := by simpa using List.find?_some h
    have hfind : (completeHabit s habitId opts now newId).2.habits.find?
        (fun x => x.id == habitId) =
        some { habit with lastCompletedAt := some now, lastReminderAt := none,
                          dueAt := now + habit.intervalMinutes * 60000 } := by
      simp only [completeHabit, h]
      exact updateFirst_find? h hp
    rw [hfind]
    simp only [Option.elim]
    omega
  · intro h
    have hp : (habit.id == habitId) = true := by simpa using List.find?_some h
    have hfind : (postponeHabit s habitId m now newId).2.habits.find?
        (fun x => x.id == habitId) =
        some { habit with
               dueAt := (if habit.dueAt > now then habit.dueAt else now) + max 1 ⌊m⌋ * 60000,
               lastReminderAt := none } := by
      simp only [postponeHabit, h]
      exact updateFirst_find? h hp
    rw [hfind]
    simp only [Option.elim]
    have hsafe : (1 : Int) ≤ max 1 ⌊m⌋ := le_max_left _ _
    have hbase : now ≤ (if habit.dueAt > now then habit.dueAt else now) := by
      split
      · omega
      · omega
    generalize hk : (max 1 ⌊m⌋ : Int) = k at hsafe ⊢
    generalize hb : (if habit.dueAt > now then habit.dueAt else now) = b at hbase ⊢
    omega
  · intro hpos
    simp only [upsertHabit, Except.toOption, Option.elim]
    omega

/-- C7 witness: the three parts applied to `store1` and `draftB`. -/
theorem dueAt_never_past_witness :
    ((completeHabit store1 "a" {} 7200000 "w1").2.habits.find?
        (fun h => h.id == "a")).elim True (fun u => 7200000 < u.dueAt)
      ∧ ((postponeHabit store1 "a" (5/2 : ℚ) 7200000 "w2").2.habits.find?
          (fun h => h.id == "a")).elim True (fun u => 7200000 < u.dueAt)
      ∧ ((upsertHabit store1 draftB none 7200000 "w3").1.toOption).elim True
          (fun h2 => h2.createdAt ≤ h2.dueAt) :=
  ⟨(dueAt_never_past store1 "a" "w1" {} (5/2) draftB 7200000 habitA).1 (by decide) (by decide),
   (dueAt_never_past store1 "a" "w2" {} (5/2) draftB 7200000 habitA).2.1 (by decide),
   (dueAt_never_past store1 "a" "w3" {} (5/2) draftB 7200000 habitA).2.2 (by decide)⟩

/-- The habit record built by the create path of `upsertHabit`
(`src/lib/storage.ts` lines 139-150). -/
def createdHabit (draft : HabitDraft) (now : Int) (newId : String) : Habit :=
  { id := newId
    name := draft.name
    type := draft.type
    intervalMinutes := draft.intervalMinutes
    targetRepetitionsPerDay := draft.targetRepetitionsPerDay
    expectedDurationMinutes := draft.expectedDurationMinutes
    notes := draft.notes
    createdAt := now
    dueAt := now + draft.intervalMinutes * 60000
    lastCompletedAt := none
    lastReminderAt := none
    archived := false }

/-- C8: creating a habit with a fresh id and then listing non-archived
habits includes the new habit exactly once, the listing contains no
archived habit, and it is sorted by ascending `dueAt`. -/
theorem create_then_list_round_trip (s : Store) (draft : HabitDraft) (now : Int)
    (newId : String) (hfresh : ∀ h ∈ s.habits, h.id ≠ newId) :
    ((listHabits (upsertHabit s draft none now newId).2 false).countP
        (fun h => h.id == newId) = 1)
      ∧ (∀ h ∈ listHabits (upsertHabit s draft none now newId).2 false, h.archived = false)
      ∧ List.Sorted (fun a b : Habit => a.dueAt ≤ b.dueAt)
          (listHabits (upsertHabit s draft none now newId).2 false) := by
  have hhabits : (upsertHabit s draft none now newId).2.habits =
      s.habits ++ [createdHabit draft now newId] := rfl
  have hlist : listHabits (upsertHabit s draft none now newId).2 false =
      List.insertionSort (fun a b : Habit => a.dueAt ≤ b.dueAt)
        ((s.habits ++ [createdHabit draft now newId]).filter (fun h => !h.archived)) := by
    simp only [listHabits, hhabits, Bool.false_eq_true, if_false]
  have hperm := List.perm_insertionSort (fun a b : Habit => a.dueAt ≤ b.dueAt)
    ((s.habits ++ [createdHabit draft now newId]).filter (fun h => !h.archived))
  refine ⟨?_, ?_, ?_⟩
  · rw [hlist, hperm.countP_eq, List.filter_append, List.countP_append]
    have h0 : (s.habits.filter (fun h => !h.archived)).countP (fun h => h.id == newId) = 0 := by
      rw [List.countP_eq_zero]
      intro a ha
      have hmem := (List.mem_filter.mp ha).1
      have hne := hfresh a hmem
      simpa using hne
    have h1 : (([createdHabit draft now newId]).filter (fun h => !h.archived)).countP
        (fun h => h.id == newId) = 1 := by
      simp [createdHabit]
    rw [h0, h1]
  · rw [hlist]
    intro h hmem
    have hmem2 := hperm.mem_iff.mp hmem
    have harch := (List.mem_filter.mp hmem2).2
    simpa using harch
  · rw [hlist]
    letI : IsTotal Habit (fun a b : Habit => a.dueAt ≤ b.dueAt) := ⟨fun a b => le_total _ _⟩
    letI : IsTrans Habit (fun a b : Habit => a.dueAt ≤ b.dueAt) :=
      ⟨fun _ _ _ hab hbc => le_trans hab hbc⟩
    exact List.sorted_insertionSort _ _

/-- C8 witness: creating in `store1` under a fresh id, the listing holds
the new habit exactly once. -/
theorem create_then_list_round_trip_witness :
    (listHabits (upsertHabit store1 draftB none 0 "z").2 false).countP
        (fun h => h.id == "z") = 1 :=
  (create_then_list_round_trip store1 draftB 0 "z" (by decide)).1

/-- C2: for every habit (the spec's claim concerns the non-archived ones
fed to the breakdown), the per-habit daily score computed by the code
equals the spec's formula
`round(clamp01(rawProgress * (1 - postponePenalty - overduePenalty)) * 100)`
with the claim's sub-expressions, provided an expected duration, when
set, is positive (its documented domain). -/
theorem habitScoreBreakdown_matches_spec (habit : Habit) (now : Int)
    (completions duration postpones : String → Option ℚ)
    (hexp : ∀ d, habit.expectedDurationMinutes = some d → 0 < d) :
    (habitScoreBreakdown habit now completions duration postpones).score =
      specHabitScore habit now ((completions habit.id).getD 0) ((duration habit.id).getD 0)
        ((postpones habit.id).getD 0) := by
  have hmain : ∀ rp dp pp op : ℚ,
      round (clamp ((rp * 0.65 + dp * 0.35) * (1 - pp - op)) * 100) =
        round (clamp ((0.65 * rp + 0.35 * dp) * (1 - pp - op)) * 100) := by
    intro rp dp pp op
    have h : rp * 0.65 + dp * 0.35 = 0.65 * rp + 0.35 * dp := by ring
    rw [h]
  have hrt : (0 : Int) < max 1 habit.targetRepetitionsPerDay :=
    lt_of_lt_of_le one_pos (le_max_left _ _)
  have hrtq : (0 : ℚ) < ((max 1 habit.targetRepetitionsPerDay : Int) : ℚ) := by
    exact_mod_cast hrt
  by_cases hov : habit.dueAt < now
  · have hq : (0 : ℚ) ≤ ((now - habit.dueAt : Int) : ℚ) / 60000 := by
      apply div_nonneg
      · exact_mod_cast Int.sub_nonneg.mpr hov.le
      · norm_num
    have hmax : max (0 : ℚ) (((now - habit.dueAt : Int) : ℚ) / 60000) =
        ((now - habit.dueAt : Int) : ℚ) / 60000 := max_eq_right hq
    rcases hed : habit.expectedDurationMinutes with _ | dmin
    · simp only [habitScoreBreakdown, specHabitScore, hed, hov, decide_True, if_true,
        Bool.if_true_left, hmax]
      exact hmain _ _ _ _
    · have hd : 0 < dmin := hexp dmin hed
      have hdne : ¬ (dmin = 0) := by omega
      have hpos : (0 : ℚ) < (dmin : ℚ) * ((max 1 habit.targetRepetitionsPerDay : Int) : ℚ) :=
        mul_pos (by exact_mod_cast hd) hrtq
      simp only [habitScoreBreakdown, specHabitScore, hed, hov, decide_True, if_true,
        Bool.if_true_left, hmax, hdne, if_false, gt_iff_lt, hpos]
      exact hmain _ _ _ _
  · rcases hed : habit.expectedDurationMinutes with _ | dmin
    · simp only [habitScoreBreakdown, specHabitScore, hed, hov, decide_False, if_false,
        Bool.if_false_left]
      exact hmain _ _ _ _
    · have hd : 0 < dmin := hexp dmin hed
      have hdne : ¬ (dmin = 0) := by omega
      have hpos : (0 : ℚ) < (dmin : ℚ) * ((max 1 habit.targetRepetitionsPerDay : Int) : ℚ) :=
        mul_pos (by exact_mod_cast hd) hrtq
      simp only [habitScoreBreakdown, specHabitScore, hed, hov, decide_False, if_false,
        Bool.if_false_left, hdne, gt_iff_lt, hpos]
      exact hmain _ _ _ _

/-- C2 witness: the spec's own worked example — interval 60, target 2,
expected duration 10, two completions totalling 20 minutes, one
postpone, not overdue — scores 95 on both sides. -/
theorem habitScoreBreakdown_matches_spec_witness :
    (habitScoreBreakdown habitA 100 (fun _ => some 2) (fun _ => some 20)
        (fun _ => some 1)).score =
      specHabitScore habitA 100 (((fun _ => some 2) habitA.id).getD 0)
        (((fun _ => some 20) habitA.id).getD 0) (((fun _ => some 1) habitA.id).getD 0) :=
  habitScoreBreakdown_matches_spec habitA 100 (fun _ => some 2) (fun _ => some 20)
    (fun _ => some 1) (by decide)

end Rayminder
